import Mathlib

/-!
Shallow embedding of `main.py` of the MEDICAL-DIAGNOSIS-ASSISTANT repository.

The embedding covers the components the claims concern: the signed-cookie
session codec (`serializer`, `set_session_cookie`, `get_user`,
`login_required`), the ICD candidate ranking (`icd_rank`), the immuno
profile heuristic (`immuno_profile_proxy`), the Gemini explanation step
(`gemini_explain`), the report builder (`build_report`), and the gated
route handler `module1_post`.

Modelling conventions:
- Python strings are Lean `String`s (sequences of code points); `str.lower`
  is modelled per character by `Char.toLower` (`strLower`), which agrees
  with Python on ASCII text, the only text the reference data contains.
- Python floats are modelled as exact rationals `ℚ`; every numeric value
  the program computes (tenths, fifths and thirds scaled by 10/100/1000)
  is represented exactly by both doubles and rationals, and no computed
  value ever falls on a rounding-mode boundary, so Python `round(x, n)`
  is modelled by integer rounding of `x * 10^n`.
- The `itsdangerous.URLSafeSerializer` (a third-party collaborator) is
  modelled at its interface: a token is a payload together with a keyed
  signature over secret, salt and payload (`macSig`, a concrete hash);
  `loads` recomputes the signature and fails (the `BadSignature` branch,
  modelled as `none`) on any mismatch.  The serializer is the non-timed
  variant, so neither the token nor `loads` carries any notion of time.
- Python's `list.sort` is a stable sort; it is modelled by
  `List.insertionSort`, which is stable for the relation used here.
- The Gemini client is modelled as the `generate_content` capability the
  code invokes: a function from model identifier and prompt to either a
  response or an error (the exception an upstream failure raises).
-/

namespace MDA

/-- The `DISCLAIMER` constant (two adjacent Python literals concatenated). -/
def DISCLAIMER : String :=
  "Disclaimer: Educational clinical decision support only. Not a medical diagnosis and not medical advice."

/-! ### Session codec (`serializer`, cookies) -/

/-- A signed payload: a JSON object with string values, as an association
list.  The source only ever signs the one-key object mapping "u" to the
username. -/
abbrev Payload := List (String × String)

/-- Fold a string into a running hash value. -/
def strHash (h : Nat) (s : String) : Nat :=
  s.data.foldl (fun a c => a * 131 + c.toNat + 1) h

/-- Model of the keyed signature `URLSafeSerializer(SECRET_KEY, salt=...)`
computes over a payload: a concrete hash of secret, salt and payload. -/
def macSig (secret salt : String) (payload : Payload) : Nat :=
  payload.foldl (fun a kv => strHash (strHash a kv.1) kv.2)
    (strHash (strHash 5381 secret) salt)

/-- A serialized token: the payload plus the signature over it. -/
structure SignedToken where
  payload : Payload
  sig : Nat
deriving DecidableEq

/-- `serializer.dumps(obj)`: attach the keyed signature. -/
def dumps (secret salt : String) (payload : Payload) : SignedToken :=
  ⟨payload, macSig secret salt payload⟩

/-- `serializer.loads(token)`: recompute and check the signature; `none`
models the `BadSignature` exception. -/
def loads (secret salt : String) (t : SignedToken) : Option Payload :=
  if t.sig = macSig secret salt t.payload then some t.payload else none

/-- The serializer salt `"imds-session"` (line 34). -/
def SESSION_SALT : String := "imds-session"

/-- The cookie name `SESSION_COOKIE = "imds_session"` (line 38). -/
def SESSION_COOKIE : String := "imds_session"

/-- The token `set_session_cookie` stores: `serializer.dumps` of the
object mapping "u" to the username (line 45). -/
def issue_token (secret username : String) : SignedToken :=
  dumps secret SESSION_SALT [("u", username)]

/-- The token-level part of `get_user` (lines 63-67): `serializer.loads`
then `data.get("u")`; `BadSignature` yields `None`. -/
def verify_token (secret : String) (t : SignedToken) : Option String :=
  match loads secret SESSION_SALT t with
  | none => none
  | some data => data.lookup "u"

/-- The part of a request the session layer reads: its cookie jar.  A
cookie whose value is the empty string is falsy in Python and therefore
behaves exactly like an absent cookie; absence covers it here. -/
structure Request where
  cookies : List (String × SignedToken)
deriving DecidableEq

/-- `get_user` (lines 59-67): read the session cookie, verify it. -/
def get_user (secret : String) (req : Request) : Option String :=
  match req.cookies.lookup SESSION_COOKIE with
  | none => none
  | some token => verify_token secret token

/-- Python truthiness of an `Optional[str]`: `None` and the empty string
are falsy. -/
def optStrTruthy : Option String → Bool
  | none => false
  | some s => !(s == "")

/-! ### ICD ranking (Module 1) -/

/-- A row of the static reference table. -/
structure CandidateEntry where
  code : String
  title : String
  keywords : List String
deriving DecidableEq

/-- The `ICD10_DEMO` reference table (lines 76-81). -/
def ICD10_DEMO : List CandidateEntry :=
  [⟨"J10.1", "Influenza with other respiratory manifestations",
    ["flu", "influenza", "fever", "cough", "myalgia"]⟩,
   ⟨"J00", "Acute nasopharyngitis [common cold]",
    ["cold", "coryza", "sneezing", "sore", "throat"]⟩,
   ⟨"A09", "Infectious gastroenteritis and colitis, unspecified",
    ["diarrhea", "vomiting", "gastro", "abdominal", "pain"]⟩,
   ⟨"B34.9", "Viral infection, unspecified",
    ["viral", "fever", "malaise"]⟩]

/-- A ranked candidate as built on line 91. -/
structure RankedCandidate where
  code : String
  title : String
  score : ℚ
  matched : List String
deriving DecidableEq

/-- One character of `symptoms.lower().replace(",", " ")`. -/
def normChar (c : Char) : Char := if c = ',' then ' ' else c.toLower

/-- Helper for Python `str.split()` with no argument: split on runs of
whitespace, producing no empty pieces.  `cur` holds the reversed
characters of the word currently being read. -/
def splitWsAux (cur : List Char) : List Char → List (List Char)
  | [] => if cur = [] then [] else [cur.reverse]
  | c :: cs =>
    if c.isWhitespace then
      if cur = [] then splitWsAux [] cs else cur.reverse :: splitWsAux [] cs
    else splitWsAux (c :: cur) cs

/-- Python `str.split()` on a character list. -/
def pySplit (l : List Char) : List (List Char) := splitWsAux [] l

/-- `set(symptoms.lower().replace(",", " ").split())` (line 84), as a
deduplicated list: lowercase, commas to spaces, split on whitespace,
duplicates collapsed.  A Python set's iteration order is arbitrary and
nothing downstream depends on this list's order. -/
def tokenSet (symptoms : String) : List String :=
  ((pySplit (symptoms.data.map normChar)).map (fun w => String.mk w)).dedup

/-- Lexicographic code-point comparison of character lists, the order
Python `sorted` uses on strings. -/
def charListLE : List Char → List Char → Bool
  | [], _ => true
  | _ :: _, [] => false
  | a :: as, b :: bs => if a = b then charListLE as bs else decide (a < b)

/-- Lexicographic order on strings as a relation. -/
def strLEProp (a b : String) : Prop := charListLE a.data b.data = true

instance : DecidableRel strLEProp :=
  fun a b => inferInstanceAs (Decidable (charListLE a.data b.data = true))

/-- Python `sorted` on a list of strings. -/
def sortedStrings (l : List String) : List String := l.insertionSort strLEProp

/-- `matched = sorted(list(toks.intersection(keys)))` (line 88) for one
reference row: the tokens also present in the row's keyword set, sorted
lexicographically. -/
def matchedOf (symptoms : String) (row : CandidateEntry) : List String :=
  sortedStrings ((tokenSet symptoms).filter (fun t => decide (t ∈ row.keywords)))

/-- Python `round(x, 3)` on the exact rational value. -/
def round3 (q : ℚ) : ℚ := (round (q * 1000) : ℚ) / 1000

/-- Python `round(x, 2)` on the exact rational value. -/
def round2 (q : ℚ) : ℚ := (round (q * 100) : ℚ) / 100

/-- `score = len(matched) / max(1, len(keys))` (line 89), before rounding.
`keys` is the Python set of the row's keywords, so its size is the
deduplicated length. -/
def rawScore (symptoms : String) (row : CandidateEntry) : ℚ :=
  ((matchedOf symptoms row).length : ℚ) / ((max 1 row.keywords.dedup.length : ℕ) : ℚ)

/-- The dict appended on line 91 for one row. -/
def rankedOf (symptoms : String) (row : CandidateEntry) : RankedCandidate :=
  ⟨row.code, row.title, round3 (rawScore symptoms row), matchedOf symptoms row⟩

/-- The `out` list before sorting (lines 85-91): rows with positive score,
in the reference table's original order. -/
def icd_out (symptoms : String) : List RankedCandidate :=
  (ICD10_DEMO.filter (fun row => decide (0 < rawScore symptoms row))).map
    (rankedOf symptoms)

/-- The descending-by-score order used by
`out.sort(key=lambda r: r["score"], reverse=True)` (line 92). -/
def scoreGE (a b : RankedCandidate) : Prop := b.score ≤ a.score

instance : DecidableRel scoreGE :=
  fun a b => inferInstanceAs (Decidable (b.score ≤ a.score))

/-- `icd_rank` (lines 83-93): score the rows, keep the positive ones,
stable-sort descending by score, truncate to five. -/
def icd_rank (symptoms : String) : List RankedCandidate :=
  ((icd_out symptoms).insertionSort scoreGE).take 5

/-! ### Immuno profile (Module 2) -/

/-- The dict `immuno_profile_proxy` returns (lines 114-118). -/
structure ImmuneProfile where
  immune_axis : String
  inflammation_score : ℚ
  notes : String
deriving DecidableEq

/-- Does `needle` lead the list `hay`? -/
def leadsWith : List Char → List Char → Bool
  | [], _ => true
  | _ :: _, [] => false
  | a :: as, b :: bs => a == b && leadsWith as bs

/-- Does `needle` occur contiguously inside `hay`? -/
def hasSub (needle : List Char) : List Char → Bool
  | [] => leadsWith needle []
  | c :: cs => leadsWith needle (c :: cs) || hasSub needle cs

/-- Python `w in t` on strings: contiguous substring containment. -/
def strIn (w t : String) : Bool := hasSub w.data t.data

/-- Python `str.lower()`, per code point. -/
def strLower (s : String) : String := String.mk (s.data.map Char.toLower)

/-- The fixed `notes` string (line 117). -/
def IMMUNO_NOTES : String :=
  "Proxy profiling from symptom text. Replace with your immunoinformatics pipeline."

/-- `immuno_profile_proxy` (lines 97-118): additive inflammation score
from three substring keyword groups, rounded then clamped; axis chosen by
a fixed if/elif priority. -/
def immuno_profile_proxy (symptoms : String) : ImmuneProfile :=
  let t := strLower symptoms
  let i0 : ℚ := 0.2
  let i1 := if ["fever", "chills"].any (fun w => strIn w t) then i0 + 0.3 else i0
  let i2 := if ["rash", "hives", "allergy", "itch"].any (fun w => strIn w t) then i1 + 0.3 else i1
  let i3 := if ["diarrhea", "vomiting"].any (fun w => strIn w t) then i2 + 0.2 else i2
  let inflammation := min 1.0 (round2 i3)
  let axis :=
    if strIn "allergy" t || strIn "hives" t then "Th2-skewed (allergic)"
    else if strIn "autoimmune" t then "Autoimmune-like"
    else "Innate (acute)"
  ⟨axis, inflammation, IMMUNO_NOTES⟩

/-- The inflammation formula exactly as the spec sentence states it: the
bonuses summed, clamped to at most 1, then rounded to two decimals (the
code instead rounds first and clamps second; the refinement theorem below
compares the two). -/
def inflammationSpec (symptoms : String) : ℚ :=
  let t := strLower symptoms
  let b1 : ℚ := if ["fever", "chills"].any (fun w => strIn w t) then 0.3 else 0
  let b2 : ℚ := if ["rash", "hives", "allergy", "itch"].any (fun w => strIn w t) then 0.3 else 0
  let b3 : ℚ := if ["diarrhea", "vomiting"].any (fun w => strIn w t) then 0.2 else 0
  round2 (min 1.0 (0.2 + b1 + b2 + b3))

/-! ### Gemini explanation (Module 3) -/

/-- Default model identifier (line 122). -/
def GEMINI_MODEL : String := "gemini-3-flash"

/-- The sentinel returned when no API key is configured (line 128; the
arrow in the source is mojibake, reproduced byte for byte). -/
def GEMINI_SENTINEL : String :=
  "GEMINI_API_KEY is not set. Add it in Render â†’ Environment."

/-- The object `generate_content` returns; its `text` may be `None`. -/
structure GenContentResponse where
  text : Option String

/-- An exception raised by the upstream call. -/
inductive GeminiError where
  | upstream
deriving DecidableEq

/-- The external `generate_content` capability: model identifier and
prompt to response or exception. -/
abbrev GeminiClient := String → String → Except GeminiError GenContentResponse

/-- The prompt built on lines 130-150 (an f-string, `.strip()`ed).  The
interpolated candidate list and profile enter as their rendered strings. -/
def gemini_prompt (symptoms icd_candidates immuno_profile : String) : String :=
  "You are an academic clinical decision-support assistant.\nDo NOT claim to diagnose.\n\n"
    ++ DISCLAIMER ++ "\n\nSymptoms:\n" ++ symptoms ++ "\n\nICD-10 candidates:\n"
    ++ icd_candidates ++ "\n\nImmuno profile:\n" ++ immuno_profile
    ++ "\n\nWrite:\n1) Why these are candidates (no diagnosis).\n2) 3 follow-up questions.\n3) 3 generic red flags that need urgent care.\nKeep it concise."

/-- `gemini_explain` (lines 126-153).  With no client configured it
returns the sentinel text.  Otherwise it calls `generate_content` with no
try/except around it, so an upstream exception propagates to the caller;
on success it returns `resp.text or ""`. -/
def gemini_explain (client : Option GeminiClient)
    (symptoms icd_candidates immuno_profile : String) : Except GeminiError String :=
  match client with
  | none => Except.ok GEMINI_SENTINEL
  | some generate_content =>
    match generate_content GEMINI_MODEL (gemini_prompt symptoms icd_candidates immuno_profile) with
    | Except.error e => Except.error e
    | Except.ok resp => Except.ok (resp.text.getD "")

/-- A client whose upstream call always raises. -/
def gemini_failing_client : GeminiClient := fun _ _ => Except.error GeminiError.upstream

/-! ### Report builder (Module 4) -/

/-- `build_report` (lines 157-173): pure string composition.  The
candidate list and profile enter as the rendered strings the f-string
interpolates. -/
def build_report (symptoms icd_candidates immuno_profile ai_text : String) : String :=
  "IMDS CAPSTONE REPORT (Demo)\n\n" ++ DISCLAIMER ++ "\n\nSymptoms:\n" ++ symptoms
    ++ "\n\nICD-10 Candidates:\n" ++ icd_candidates
    ++ "\n\nImmunoinformatics Profiling (Proxy):\n" ++ immuno_profile
    ++ "\n\nGemini AI Explanation:\n" ++ ai_text ++ "\n"

/-- Substring containment stated structurally: `hay` splits around
`needle`. -/
def strContainsStr (needle hay : String) : Prop := ∃ a b : String, hay = a ++ needle ++ b

/-! ### Routes -/

/-- The two response shapes the claims concern: a redirect, or a rendered
module page with its template context. -/
inductive Response where
  | redirect (location : String) (status : Nat)
  | template (tmplName : String) (results : Option (List RankedCandidate)) (symptoms : String)
deriving DecidableEq

/-- `login_required` (lines 69-72): Python `if not get_user(request)`
(both `None` and an empty username are falsy) redirects to the login
page with status 303. -/
def login_required (secret : String) (req : Request) : Option Response :=
  if optStrTruthy (get_user secret req) then none
  else some (Response.redirect "/login" 303)

/-- The POST handler of Module 1 (lines 234-240): gate, then rank. -/
def module1_post (secret : String) (req : Request) (symptoms : String) : Response :=
  match login_required secret req with
  | some gate => gate
  | none => Response.template "module1_icd.html" (some (icd_rank symptoms)) symptoms

/-- The ASCII punctuation characters, for the degenerate-input claim. -/
def PUNCT_CHARS : List Char :=
  "!\"#$%&\x27()*+,-./:;<=>?@[\\]^_\x60\x7b|\x7d~".data

/-! ### Helper lemmas -/

lemma charListLE_total : ∀ as bs : List Char, charListLE as bs = true ∨ charListLE bs as = true := by
  intro as
  induction as with
  | nil => intro bs; exact Or.inl rfl
  | cons a as ih =>
    intro bs
    cases bs with
    | nil => exact Or.inr rfl
    | cons b bs =>
      by_cases hab : a = b
      · subst hab
        rcases ih bs with h | h
        · exact Or.inl (by simp [charListLE, h])
        · exact Or.inr (by simp [charListLE, h])
      · rcases lt_or_gt_of_ne hab with h | h
        · exact Or.inl (by simp [charListLE, hab, h])
        · exact Or.inr (by simp [charListLE, Ne.symm hab, h])

lemma charListLE_trans : ∀ as bs cs : List Char,
    charListLE as bs = true → charListLE bs cs = true → charListLE as cs = true := by
  intro as
  induction as with
  | nil => intro bs cs _ _; rfl
  | cons a as ih =>
    intro bs cs h1 h2
    cases bs with
    | nil => simp [charListLE] at h1
    | cons b bs =>
      cases cs with
      | nil => simp [charListLE] at h2
      | cons c cs =>
        by_cases hab : a = b
        · subst hab
          by_cases hac : a = c
          · subst hac
            simp only [charListLE, if_pos rfl] at h1 h2 ⊢
            exact ih bs cs h1 h2
          · simp [charListLE, hac] at h2 ⊢
            exact h2
        · by_cases hbc : b = c
          · subst hbc
            simp [charListLE, hab] at h1 ⊢
            exact h1
          · simp [charListLE, hab] at h1
            simp [charListLE, hbc] at h2
            have hac : a < c := lt_trans h1 h2
            simp [charListLE, ne_of_lt hac, hac]

instance : IsTotal String strLEProp := ⟨fun a b => charListLE_total a.data b.data⟩

instance : IsTrans String strLEProp := ⟨fun a b c => charListLE_trans a.data b.data c.data⟩

instance : IsTotal RankedCandidate scoreGE := ⟨fun a b => le_total b.score a.score⟩

instance : IsTrans RankedCandidate scoreGE := ⟨fun _ _ _ h1 h2 => le_trans h2 h1⟩

lemma verify_token_issue_token (secret u : String) :
    verify_token secret (issue_token secret u) = some u := by
  simp [verify_token, issue_token, dumps, loads, List.lookup]

/-- A stable sort leaves each equivalence class of the sort key in its
original relative order: filtering by any class-fixing predicate commutes
with the sort. -/
lemma filter_insertionSort_eq {α : Type} (r : α → α → Prop) [DecidableRel r]
    [IsTotal α r] [IsTrans α r] (p : α → Bool)
    (hp : ∀ a b : α, p a = true → p b = true → r a b) (l : List α) :
    (l.insertionSort r).filter p = l.filter p := by
  have hperm : ((l.insertionSort r).filter p).Perm (l.filter p) :=
    (List.perm_insertionSort r l).filter p
  have hpair : (l.filter p).Pairwise r := by
    apply List.pairwise_of_forall_mem_list
    intro a ha b hb
    exact hp a b (List.of_mem_filter ha) (List.of_mem_filter hb)
  have hsub : (l.filter p).Sublist (l.insertionSort r) :=
    List.sublist_insertionSort hpair (List.filter_sublist l)
  have hself : (l.filter p).filter p = l.filter p :=
    List.filter_eq_self.mpr (fun a ha => List.of_mem_filter ha)
  have hsub2 : (l.filter p).Sublist ((l.insertionSort r).filter p) := by
    have h3 := List.Sublist.filter p hsub
    rwa [hself] at h3
  exact (hsub2.eq_of_length hperm.length_eq.symm).symm

lemma icd_out_length_le (s : String) : (icd_out s).length ≤ 4 := by
  have h := List.length_filter_le (fun row => decide (0 < rawScore s row)) ICD10_DEMO
  simp only [icd_out, List.length_map]
  exact le_trans h (Nat.le_of_eq rfl)

lemma icd_rank_eq_sort (s : String) :
    icd_rank s = (icd_out s).insertionSort scoreGE := by
  simp only [icd_rank]
  apply List.take_of_length_le
  rw [List.length_insertionSort]
  exact le_trans (icd_out_length_le s) (by norm_num)

lemma icd_code_inj : ∀ r1 ∈ ICD10_DEMO, ∀ r2 ∈ ICD10_DEMO, r1.code = r2.code → r1 = r2 := by
  decide

lemma splitWsAux_all_ws : ∀ l : List Char,
    (∀ c ∈ l, c.isWhitespace = true) → splitWsAux [] l = [] := by
  intro l
  induction l with
  | nil => intro _; simp [splitWsAux]
  | cons c cs ih =>
    intro h
    have hc : c.isWhitespace = true := h c (List.mem_cons_self c cs)
    simp [splitWsAux, hc]
    exact ih (fun c' hc' => h c' (List.mem_cons_of_mem c hc'))

lemma splitWsAux_chars : ∀ (l cur : List Char), (∀ c ∈ cur, c.isWhitespace = false) →
    ∀ w ∈ splitWsAux cur l, ∀ c ∈ w, (c ∈ cur ∨ c ∈ l) ∧ c.isWhitespace = false := by
  intro l
  induction l with
  | nil =>
    intro cur hcur w hw c hc
    by_cases h0 : cur = []
    · subst h0; simp [splitWsAux] at hw
    · simp [splitWsAux, h0] at hw
      subst hw
      have hmem : c ∈ cur := (List.mem_reverse).mp hc
      exact ⟨Or.inl hmem, hcur c hmem⟩
  | cons a as ih =>
    intro cur hcur w hw c hc
    by_cases ha : a.isWhitespace = true
    · by_cases h0 : cur = []
      · subst h0
        simp only [splitWsAux, ha, if_true, if_pos rfl] at hw
        rcases ih [] (by simp) w hw c hc with ⟨hin, hnw⟩
        rcases hin with h | h
        · exact absurd h (List.not_mem_nil c)
        · exact ⟨Or.inr (List.mem_cons_of_mem a h), hnw⟩
      · simp only [splitWsAux, ha, if_true, if_neg h0, List.mem_cons] at hw
        rcases hw with hw | hw
        · subst hw
          have hmem : c ∈ cur := (List.mem_reverse).mp hc
          exact ⟨Or.inl hmem, hcur c hmem⟩
        · rcases ih [] (by simp) w hw c hc with ⟨hin, hnw⟩
          rcases hin with h | h
          · exact absurd h (List.not_mem_nil c)
          · exact ⟨Or.inr (List.mem_cons_of_mem a h), hnw⟩
    · have ha' : a.isWhitespace = false := by simpa using ha
      simp only [splitWsAux, ha', Bool.false_eq_true, if_false] at hw
      have hcur' : ∀ c' ∈ a :: cur, c'.isWhitespace = false := by
        intro c' hc'
        rcases List.mem_cons.mp hc' with rfl | h
        · exact ha'
        · exact hcur c' h
      rcases ih (a :: cur) hcur' w hw c hc with ⟨hin, hnw⟩
      rcases hin with h | h
      · rcases List.mem_cons.mp h with h2 | h2
        · exact ⟨Or.inr (by rw [h2]; exact List.mem_cons_self a as), hnw⟩
        · exact ⟨Or.inl h2, hnw⟩
      · exact ⟨Or.inr (List.mem_cons_of_mem a h), hnw⟩

lemma tokenSet_chars (s : String) (t : String) (ht : t ∈ tokenSet s) :
    ∀ c ∈ t.data, (∃ c0 ∈ s.data, normChar c0 = c) ∧ c.isWhitespace = false := by
  rw [tokenSet] at ht
  have ht' := List.mem_dedup.mp ht
  obtain ⟨w, hw, rfl⟩ := List.mem_map.mp ht'
  intro c hc
  have hc' : c ∈ w := hc
  rw [pySplit] at hw
  rcases splitWsAux_chars (s.data.map normChar) [] (by simp) w hw c hc' with ⟨hin, hnw⟩
  rcases hin with h | h
  · exact absurd h (List.not_mem_nil c)
  · obtain ⟨c0, hc0, he⟩ := List.mem_map.mp h
    exact ⟨⟨c0, hc0, he⟩, hnw⟩

lemma ws_norm_ws : ∀ c : Char, c.isWhitespace = true → (normChar c).isWhitespace = true := by
  intro c h
  have hd : ((c = ' ' ∨ c = '\t') ∨ c = '\x0d') ∨ c = '\n' := by
    simpa [Char.isWhitespace] using h
  rcases hd with ((rfl | rfl) | rfl) | rfl <;> decide

lemma punct_norm_not_alpha : ∀ c ∈ PUNCT_CHARS, (normChar c).isAlpha = false := by
  decide

lemma keywords_have_alpha :
    ∀ row ∈ ICD10_DEMO, ∀ k ∈ row.keywords, k.data.any (fun c => c.isAlpha) = true := by
  decide

lemma rawScore_eq_zero_of_matched_nil (s : String) (row : CandidateEntry)
    (h : matchedOf s row = []) : rawScore s row = 0 := by
  simp [rawScore, h]

lemma icd_rank_eq_nil_of_matched_nil (s : String)
    (h : ∀ row ∈ ICD10_DEMO, matchedOf s row = []) : icd_rank s = [] := by
  have hout : icd_out s = [] := by
    simp only [icd_out]
    have hfil : ICD10_DEMO.filter (fun row => decide (0 < rawScore s row)) = [] := by
      rw [List.filter_eq_nil_iff]
      intro row hrow
      rw [rawScore_eq_zero_of_matched_nil s row (h row hrow)]
      simp
    rw [hfil]
    rfl
  rw [icd_rank_eq_sort, hout]
  rfl

/-! ### Claim theorems -/

/-- C3 (confirmed): verifying a token freshly issued for username `u`
yields `u` back: signing the payload that maps "u" to `u` with the server
secret and then decoding and signature-checking that token returns exactly
the username that was encoded. -/
theorem session_roundtrip (secret u : String) :
    verify_token secret (issue_token secret u) = some u :=
  verify_token_issue_token secret u

/-- C10 (confirmed): session verification has no expiry or age input at
all (the serializer is the non-timed variant, so the embedding of
`get_user` takes only the secret and the request's cookies); the outcome
is a function of the session-cookie value alone, it is `none` exactly
when the cookie is absent, the signature check fails, or the signed
payload lacks the "u" key, and a signature-valid issued token is accepted
no matter when it was issued. -/
theorem session_verify_no_expiry (secret : String) (req : Request) :
    (get_user secret req = none ↔
      req.cookies.lookup SESSION_COOKIE = none ∨
      (∃ t, req.cookies.lookup SESSION_COOKIE = some t ∧
        loads secret SESSION_SALT t = none) ∨
      (∃ t p, req.cookies.lookup SESSION_COOKIE = some t ∧
        loads secret SESSION_SALT t = some p ∧ p.lookup "u" = none)) ∧
    (∀ req' : Request,
      req.cookies.lookup SESSION_COOKIE = req'.cookies.lookup SESSION_COOKIE →
      get_user secret req = get_user secret req') ∧
    (∀ t u, req.cookies.lookup SESSION_COOKIE = some t → t = issue_token secret u →
      get_user secret req = some u) := by
  refine ⟨?_, ?_, ?_⟩
  · rcases hcook : req.cookies.lookup SESSION_COOKIE with _ | t
    · exact iff_of_true (by simp [get_user, hcook]) (Or.inl rfl)
    · rcases hload : loads secret SESSION_SALT t with _ | p
      · exact iff_of_true (by simp [get_user, verify_token, hcook, hload])
          (Or.inr (Or.inl ⟨t, rfl, hload⟩))
      · rcases hu : p.lookup "u" with _ | u
        · exact iff_of_true (by simp [get_user, verify_token, hcook, hload, hu])
            (Or.inr (Or.inr ⟨t, p, rfl, hload, hu⟩))
        · refine iff_of_false (by simp [get_user, verify_token, hcook, hload, hu]) ?_
          rintro (h | ⟨t', ht', hl'⟩ | ⟨t', p', ht', hl', hu'⟩)
          · exact Option.noConfusion h
          · injection ht' with e
            subst e
            rw [hload] at hl'
            exact Option.noConfusion hl'
          · injection ht' with e
            subst e
            rw [hload] at hl'
            injection hl' with e2
            subst e2
            rw [hu] at hu'
            exact Option.noConfusion hu'
  · intro req' h
    unfold get_user
    rw [h]
  · intro t u hcook ht
    subst ht
    simp [get_user, hcook, verify_token_issue_token]

/-- Witness for C10 at a concrete secret, request and token. -/
theorem session_verify_no_expiry_witness :
    get_user "change-me-in-render"
      ⟨[(SESSION_COOKIE, issue_token "change-me-in-render" "student")]⟩ = some "student" :=
  (session_verify_no_expiry "change-me-in-render"
      ⟨[(SESSION_COOKIE, issue_token "change-me-in-render" "student")]⟩).2.2
    (issue_token "change-me-in-render" "student") "student" rfl rfl

/-- C2 (confirmed): a request to the module endpoint with no session
cookie, or with a cookie whose token fails verification — whether the
signature check fails or the signed payload lacks the username key, both
collapsing to `verify_token = none` — gets the HTTP 303 redirect to the
login path, identically in both cases, and never the module data; the
module page (which carries the ranking results) is produced only for a
request whose cookie verifies to a username. -/
theorem module_access_gate (secret : String) (req : Request) (s : String) :
    (req.cookies.lookup SESSION_COOKIE = none →
      module1_post secret req s = Response.redirect "/login" 303) ∧
    (∀ t, req.cookies.lookup SESSION_COOKIE = some t →
      verify_token secret t = none →
      module1_post secret req s = Response.redirect "/login" 303) ∧
    (∀ tmpl results sym, module1_post secret req s = Response.template tmpl results sym →
      (∃ t u, req.cookies.lookup SESSION_COOKIE = some t ∧
        verify_token secret t = some u) ∧ results = some (icd_rank s)) := by
  refine ⟨?_, ?_, ?_⟩
  · intro h
    simp [module1_post, login_required, get_user, optStrTruthy, h]
  · intro t ht hv
    simp [module1_post, login_required, get_user, optStrTruthy, ht, hv]
  · intro tmpl results sym h
    rcases hcook : req.cookies.lookup SESSION_COOKIE with _ | t
    · simp [module1_post, login_required, get_user, optStrTruthy, hcook] at h
    · rcases hv : verify_token secret t with _ | u
      · simp [module1_post, login_required, get_user, optStrTruthy, hcook, hv] at h
      · by_cases hu0 : u = ""
        · subst hu0
          simp [module1_post, login_required, get_user, optStrTruthy, hcook, hv] at h
        · have hmod : module1_post secret req s
              = Response.template "module1_icd.html" (some (icd_rank s)) s := by
            simp [module1_post, login_required, get_user, optStrTruthy, hcook, hv, hu0]
          rw [hmod] at h
          refine ⟨⟨t, u, rfl, hv⟩, ?_⟩
          injection h with h1 h2 h3
          exact h2.symm

/-- Witness for C2: with a concrete secret, the cookieless request, a
request with a forged signature, and a request with a correctly signed
payload that lacks the username key all land on the login redirect. -/
theorem module_access_gate_witness :
    module1_post "k" ⟨[]⟩ "flu" = Response.redirect "/login" 303 ∧
    module1_post "k" ⟨[(SESSION_COOKIE, ⟨[("u", "student")], 0⟩)]⟩ "flu"
      = Response.redirect "/login" 303 ∧
    module1_post "k" ⟨[(SESSION_COOKIE, dumps "k" SESSION_SALT [("role", "admin")])]⟩ "flu"
      = Response.redirect "/login" 303 :=
  ⟨(module_access_gate "k" ⟨[]⟩ "flu").1 rfl,
   (module_access_gate "k" ⟨[(SESSION_COOKIE, ⟨[("u", "student")], 0⟩)]⟩ "flu").2.1
     ⟨[("u", "student")], 0⟩ rfl (by decide),
   (module_access_gate "k"
       ⟨[(SESSION_COOKIE, dumps "k" SESSION_SALT [("role", "admin")])]⟩ "flu").2.1
     (dumps "k" SESSION_SALT [("role", "admin")]) rfl (by decide)⟩

/-- C4 (confirmed): for every symptom string the ranking has at most five
entries and is sorted non-increasingly by score; the sort being stable,
candidates of equal score keep the reference table's original order:
filtering the output by any fixed score value equals filtering the
pre-sort list `icd_out`, which is in table order. -/
theorem icd_rank_len_sorted_stable (s : String) :
    (icd_rank s).length ≤ 5 ∧ List.Sorted scoreGE (icd_rank s) ∧
    (∀ q : ℚ, (icd_rank s).filter (fun r => decide (r.score = q))
      = (icd_out s).filter (fun r => decide (r.score = q))) := by
  refine ⟨?_, ?_, ?_⟩
  · simp only [icd_rank]
    exact List.length_take_le 5 _
  · rw [icd_rank_eq_sort]
    exact List.sorted_insertionSort scoreGE (icd_out s)
  · intro q
    rw [icd_rank_eq_sort]
    refine filter_insertionSort_eq scoreGE _ ?_ (icd_out s)
    intro a b ha hb
    have ha' : a.score = q := of_decide_eq_true ha
    have hb' : b.score = q := of_decide_eq_true hb
    simp [scoreGE, ha', hb']

/-- C5 (confirmed): per reference row, `matched` is the lexicographically
sorted intersection of the normalized token set with the row's keyword
set, the score is the rounded ratio of matched count to keyword-set size
(with a zero-size keyword set guarded to denominator 1 inside `rawScore`),
and the row's candidate is in the output exactly when that score is
positive. -/
theorem icd_rank_entry (s : String) (row : CandidateEntry) (hrow : row ∈ ICD10_DEMO) :
    List.Sorted strLEProp (matchedOf s row) ∧
    (∀ t : String, t ∈ matchedOf s row ↔ t ∈ tokenSet s ∧ t ∈ row.keywords) ∧
    (rankedOf s row).matched = matchedOf s row ∧
    (rankedOf s row).score = round3 (rawScore s row) ∧
    (rankedOf s row ∈ icd_rank s ↔ 0 < rawScore s row) := by
  refine ⟨?_, ?_, rfl, rfl, ?_⟩
  · exact List.sorted_insertionSort strLEProp _
  · intro t
    simp [matchedOf, sortedStrings, List.mem_insertionSort, List.mem_filter]
  · rw [icd_rank_eq_sort, List.mem_insertionSort]
    constructor
    · intro hmem
      simp only [icd_out] at hmem
      obtain ⟨row', hrow', heq⟩ := List.mem_map.mp hmem
      have h0 := List.of_mem_filter hrow'
      have hrow'' : row' ∈ ICD10_DEMO := List.mem_of_mem_filter hrow'
      have hcode : row'.code = row.code := congrArg RankedCandidate.code heq
      have hrr : row' = row := icd_code_inj row' hrow'' row hrow hcode
      rw [hrr] at h0
      exact of_decide_eq_true h0
    · intro h0
      simp only [icd_out]
      exact List.mem_map.mpr ⟨row, List.mem_filter.mpr ⟨hrow, decide_eq_true h0⟩, rfl⟩

/-- Witness for C5 at the influenza row and the input "fever cough": the
row matches two of its five keywords and appears in the output. -/
theorem icd_rank_entry_witness :
    rankedOf "fever cough"
      ⟨"J10.1", "Influenza with other respiratory manifestations",
       ["flu", "influenza", "fever", "cough", "myalgia"]⟩
      ∈ icd_rank "fever cough" := by
  refine (icd_rank_entry "fever cough"
    ⟨"J10.1", "Influenza with other respiratory manifestations",
     ["flu", "influenza", "fever", "cough", "myalgia"]⟩ (by decide)).2.2.2.2.mpr ?_
  have hm : matchedOf "fever cough"
      ⟨"J10.1", "Influenza with other respiratory manifestations",
       ["flu", "influenza", "fever", "cough", "myalgia"]⟩ = ["cough", "fever"] := by decide
  have hden : (List.dedup (CandidateEntry.keywords
      ⟨"J10.1", "Influenza with other respiratory manifestations",
       ["flu", "influenza", "fever", "cough", "myalgia"]⟩)).length = 5 := by decide
  unfold rawScore
  rw [hm, hden]
  norm_num

/-- C6 (confirmed): empty input, all-whitespace input and all-punctuation
input each rank to the empty list, as a normal result rather than an
error. -/
theorem icd_rank_degenerate :
    icd_rank "" = [] ∧
    (∀ s : String, (∀ c ∈ s.data, c.isWhitespace = true) → icd_rank s = []) ∧
    (∀ s : String, (∀ c ∈ s.data, c ∈ PUNCT_CHARS) → icd_rank s = []) := by
  have hws : ∀ s : String, (∀ c ∈ s.data, c.isWhitespace = true) → icd_rank s = [] := by
    intro s hs
    apply icd_rank_eq_nil_of_matched_nil
    intro row _
    have htok : tokenSet s = [] := by
      simp only [tokenSet, pySplit]
      rw [splitWsAux_all_ws]
      · rfl
      · intro c hc
        obtain ⟨c0, hc0, he⟩ := List.mem_map.mp hc
        rw [← he]
        exact ws_norm_ws c0 (hs c0 hc0)
    simp [matchedOf, htok, sortedStrings, List.insertionSort]
  refine ⟨hws "" (by decide), hws, ?_⟩
  intro s hs
  apply icd_rank_eq_nil_of_matched_nil
  intro row hrow
  have hfil : (tokenSet s).filter (fun t => decide (t ∈ row.keywords)) = [] := by
    rw [List.filter_eq_nil_iff]
    intro t ht hdec
    have htk : t ∈ row.keywords := of_decide_eq_true hdec
    obtain ⟨ca, hca, hcaA⟩ := List.any_eq_true.mp (keywords_have_alpha row hrow t htk)
    obtain ⟨⟨c0, hc0, he⟩, _⟩ := tokenSet_chars s t ht ca hca
    have hna := punct_norm_not_alpha c0 (hs c0 hc0)
    rw [he] at hna
    rw [hna] at hcaA
    exact Bool.noConfusion hcaA
  simp [matchedOf, hfil, sortedStrings, List.insertionSort]

/-- Witness for C6 at a concrete whitespace-only and a concrete
punctuation-only input. -/
theorem icd_rank_degenerate_witness :
    icd_rank " \t\n " = [] ∧ icd_rank "?!,." = [] :=
  ⟨icd_rank_degenerate.2.1 " \t\n " (by decide),
   icd_rank_degenerate.2.2 "?!,." (by decide)⟩

/-- C7 (confirmed): the profile function is total and its inflammation
score equals the claim's formula — 0.2 plus the three group bonuses, the
sum clamped to at most 1.0 and rounded to 2 decimals — and always lies in
[0, 1].  (The code rounds before clamping while the claim clamps before
rounding; the two agree on every input, as the proof shows case by
case.) -/
theorem inflammation_score_spec (s : String) :
    (immuno_profile_proxy s).inflammation_score = inflammationSpec s ∧
    0 ≤ (immuno_profile_proxy s).inflammation_score ∧
    (immuno_profile_proxy s).inflammation_score ≤ 1 := by
  cases h1 : ["fever", "chills"].any (fun w => strIn w (strLower s)) <;>
  cases h2 : ["rash", "hives", "allergy", "itch"].any (fun w => strIn w (strLower s)) <;>
  cases h3 : ["diarrhea", "vomiting"].any (fun w => strIn w (strLower s)) <;>
    simp only [immuno_profile_proxy, inflammationSpec, h1, h2, h3, if_true, if_false,
      Bool.false_eq_true] <;>
    norm_num [round2, min_def]

/-- C8 (confirmed): the axis is selected in fixed priority order with the
first match winning — allergy/hives, then autoimmune, else the innate
default — and profile("hives allergy") is Th2-skewed. -/
theorem axis_priority :
    (∀ s : String, (strIn "allergy" (strLower s) || strIn "hives" (strLower s)) = true →
      (immuno_profile_proxy s).immune_axis = "Th2-skewed (allergic)") ∧
    (∀ s : String, (strIn "allergy" (strLower s) || strIn "hives" (strLower s)) = false →
      strIn "autoimmune" (strLower s) = true →
      (immuno_profile_proxy s).immune_axis = "Autoimmune-like") ∧
    (∀ s : String, (strIn "allergy" (strLower s) || strIn "hives" (strLower s)) = false →
      strIn "autoimmune" (strLower s) = false →
      (immuno_profile_proxy s).immune_axis = "Innate (acute)") ∧
    (immuno_profile_proxy "hives allergy").immune_axis = "Th2-skewed (allergic)" := by
  refine ⟨?_, ?_, ?_, ?_⟩
  · intro s h
    simp [immuno_profile_proxy, h]
  · intro s h1 h2
    simp [immuno_profile_proxy, h1, h2]
  · intro s h1 h2
    simp [immuno_profile_proxy, h1, h2]
  · rfl

/-- Witness for C8 at concrete inputs exercising the second and third
priority branches. -/
theorem axis_priority_witness :
    (immuno_profile_proxy "rash autoimmune").immune_axis = "Autoimmune-like" ∧
    (immuno_profile_proxy "fever").immune_axis = "Innate (acute)" :=
  ⟨axis_priority.2.1 "rash autoimmune" (by decide) (by decide),
   axis_priority.2.2.1 "fever" (by decide) (by decide)⟩

/-- C1 counterexample: with a client configured and the upstream call
erroring, `gemini_explain` returns the error — it does not substitute the
sentinel, so the upstream-failure half of the claim fails on the code
(there is no try/except around the call on line 152). -/
theorem gemini_explain_error_propagates :
    gemini_explain (some gemini_failing_client) "fever" "[]" "axis"
      = Except.error GeminiError.upstream ∧
    gemini_explain (some gemini_failing_client) "fever" "[]" "axis"
      ≠ Except.ok GEMINI_SENTINEL :=
  ⟨rfl, fun h => nomatch h⟩

/-- C1 (corrected): when no generator credential is configured the
narrative step returns the fixed sentinel string as a successful result;
but when a credential is configured and the external call itself errors,
the error propagates to the caller instead of degrading to the sentinel;
on upstream success the narrative is the response text (empty text
defaulting to ""). -/
theorem gemini_explain_amended (symptoms icd_candidates immuno_profile : String) :
    gemini_explain none symptoms icd_candidates immuno_profile
      = Except.ok GEMINI_SENTINEL ∧
    (∀ (generate : GeminiClient) (e : GeminiError),
      generate GEMINI_MODEL (gemini_prompt symptoms icd_candidates immuno_profile)
        = Except.error e →
      gemini_explain (some generate) symptoms icd_candidates immuno_profile
        = Except.error e) ∧
    (∀ (generate : GeminiClient) (resp : GenContentResponse),
      generate GEMINI_MODEL (gemini_prompt symptoms icd_candidates immuno_profile)
        = Except.ok resp →
      gemini_explain (some generate) symptoms icd_candidates immuno_profile
        = Except.ok (resp.text.getD "")) := by
  refine ⟨rfl, ?_, ?_⟩
  · intro g e h
    simp [gemini_explain, h]
  · intro g r h
    simp [gemini_explain, h]

/-- Witness for the amended C1 at concrete inputs: the unconfigured case
yields the sentinel, the erroring client propagates its error. -/
theorem gemini_explain_amended_witness :
    gemini_explain none "fever" "[]" "axis" = Except.ok GEMINI_SENTINEL ∧
    gemini_explain (some gemini_failing_client) "fever" "[]" "axis"
      = Except.error GeminiError.upstream :=
  ⟨(gemini_explain_amended "fever" "[]" "axis").1,
   (gemini_explain_amended "fever" "[]" "axis").2.1 gemini_failing_client
     GeminiError.upstream rfl⟩

/-- C9 (confirmed): the report builder is a total pure string composition
whose result contains the disclaimer line, the original symptom text and
the rendered candidate list verbatim, for every input — including the
sentinel narrative text. -/
theorem build_report_contains (symptoms icd_candidates immuno_profile ai_text : String) :
    strContainsStr DISCLAIMER (build_report symptoms icd_candidates immuno_profile ai_text) ∧
    strContainsStr symptoms (build_report symptoms icd_candidates immuno_profile ai_text) ∧
    strContainsStr icd_candidates
      (build_report symptoms icd_candidates immuno_profile ai_text) := by
  refine ⟨⟨"IMDS CAPSTONE REPORT (Demo)\n\n",
      "\n\nSymptoms:\n" ++ symptoms ++ "\n\nICD-10 Candidates:\n" ++ icd_candidates
        ++ "\n\nImmunoinformatics Profiling (Proxy):\n" ++ immuno_profile
        ++ "\n\nGemini AI Explanation:\n" ++ ai_text ++ "\n", ?_⟩,
    ⟨"IMDS CAPSTONE REPORT (Demo)\n\n" ++ DISCLAIMER ++ "\n\nSymptoms:\n",
      "\n\nICD-10 Candidates:\n" ++ icd_candidates
        ++ "\n\nImmunoinformatics Profiling (Proxy):\n" ++ immuno_profile
        ++ "\n\nGemini AI Explanation:\n" ++ ai_text ++ "\n", ?_⟩,
    ⟨"IMDS CAPSTONE REPORT (Demo)\n\n" ++ DISCLAIMER ++ "\n\nSymptoms:\n" ++ symptoms
        ++ "\n\nICD-10 Candidates:\n",
      "\n\nImmunoinformatics Profiling (Proxy):\n" ++ immuno_profile
        ++ "\n\nGemini AI Explanation:\n" ++ ai_text ++ "\n", ?_⟩⟩ <;>
  simp [build_report, String.append_assoc]

end MDA
